import Mathlib

/-!
Verification development for the `noemoji` directory scanner
(`noemoji.py`): a tool that scans a directory tree for text files,
detects Unicode emoji codepoints in each file, and optionally strips
them in place.

The Lean definitions below are a shallow embedding of the Python
source.  Pure Python functions become Lean functions; filesystem
interactions (stat, read, write, rename) are modelled by explicit
state/outcome parameters so that failure injection (permission errors,
mid-write I/O errors) is expressible.  Python strings are modelled as
Lean `String` (both are sequences of Unicode scalar values, and
`len`/`String.length` both count codepoints).
-/

namespace NoEmoji

/-- `LARGE_FILE_THRESHOLD = 10 * 1024 * 1024` (noemoji.py line 27). -/
def LARGE_FILE_THRESHOLD : Nat := 10 * 1024 * 1024

/-- The inclusive codepoint ranges of `EMOJI_PATTERN` (noemoji.py lines
39-130).  The regex is a single character class (no `+` quantifier, see
the comment on line 128 of the source), so it matches one codepoint at
a time; membership in the class is the union of these ranges.
Single characters in the class are represented as one-point ranges. -/
def emojiRanges : List (Nat × Nat) :=
  [ -- SMP plane emoji blocks
    (0x1F600, 0x1F64F), (0x1F300, 0x1F5FF), (0x1F680, 0x1F6FF),
    (0x1F900, 0x1F9FF), (0x1FA00, 0x1FA6F), (0x1FA70, 0x1FAFF),
    (0x1F1E0, 0x1F1FF),
    -- BMP plane: selected emoji characters
    (0x2702, 0x2704), (0x2708, 0x270D), (0x270F, 0x270F),
    (0x2712, 0x2712), (0x2714, 0x2714), (0x2716, 0x2716),
    (0x271D, 0x271D), (0x2721, 0x2721), (0x2728, 0x2728),
    (0x2733, 0x2734), (0x2744, 0x2744), (0x2747, 0x2747),
    (0x274C, 0x274C), (0x274E, 0x274E), (0x2753, 0x2755),
    (0x2757, 0x2757), (0x2763, 0x2764), (0x2795, 0x2797),
    (0x27A1, 0x27A1), (0x27B0, 0x27B0), (0x27BF, 0x27BF),
    (0x2B05, 0x2B07), (0x2B1B, 0x2B1C), (0x2B50, 0x2B50),
    (0x2B55, 0x2B55), (0x3030, 0x3030), (0x303D, 0x303D),
    (0x1F004, 0x1F004), (0x1F0CF, 0x1F0CF), (0x1F170, 0x1F171),
    (0x1F17E, 0x1F17F), (0x1F18E, 0x1F18E), (0x1F191, 0x1F19A),
    (0x1F201, 0x1F202), (0x1F21A, 0x1F21A), (0x1F22F, 0x1F22F),
    (0x1F232, 0x1F23A), (0x1F250, 0x1F251),
    -- common emoji symbols
    (0x23E9, 0x23F3), (0x23F8, 0x23FA), (0x25B6, 0x25B6),
    (0x25C0, 0x25C0), (0x2600, 0x2604), (0x2611, 0x2611),
    (0x2614, 0x2615), (0x2618, 0x2618), (0x261D, 0x261D),
    (0x2620, 0x2620), (0x2622, 0x2623), (0x2626, 0x2626),
    (0x262A, 0x262A), (0x262E, 0x262F), (0x2638, 0x263A),
    (0x2640, 0x2640), (0x2642, 0x2642), (0x2648, 0x2653),
    (0x2668, 0x2668), (0x267B, 0x267B), (0x267E, 0x267F),
    (0x2692, 0x2697), (0x2699, 0x2699), (0x269B, 0x269C),
    (0x26A0, 0x26A1), (0x26A7, 0x26A7), (0x26AA, 0x26AB),
    (0x26B0, 0x26B1), (0x26BD, 0x26BE), (0x26C4, 0x26C5),
    (0x26C8, 0x26C8), (0x26CE, 0x26CE), (0x26CF, 0x26CF),
    (0x26D1, 0x26D1), (0x26D3, 0x26D4), (0x26E9, 0x26EA),
    (0x26F0, 0x26F5), (0x26F7, 0x26FA), (0x26FD, 0x26FD) ]

/-- Whether a single codepoint is matched by the `EMOJI_PATTERN`
character class. -/
def isEmojiChar (c : Char) : Bool :=
  emojiRanges.any fun r => r.1 ≤ c.toNat && c.toNat ≤ r.2

/-- `find_emojis_regex(text)` (noemoji.py lines 140-142):
`EMOJI_PATTERN.findall(text)`.  Because the pattern is a one-codepoint
character class, `findall` returns each matching codepoint, in order of
occurrence, as a one-character string. -/
def find_emojis_regex (text : String) : List String :=
  (text.toList.filter isEmojiChar).map fun c => String.singleton c

/-- `remove_emojis_regex(text)` (noemoji.py lines 145-147):
`EMOJI_PATTERN.sub("", text)` — every matching codepoint is deleted,
all other codepoints keep their order and adjacency. -/
def remove_emojis_regex (text : String) : String :=
  String.mk (text.toList.filter fun c => !isEmojiChar c)

/-- The implementation selected at startup (noemoji.py lines 160-166).
The optional `emoji` third-party library is not vendored in this
repository, so `HAS_EMOJI_LIB` is `False` and the regex implementation
is chosen. -/
def find_emojis : String → List String := find_emojis_regex

/-- Startup selection of the strip implementation, as for
`find_emojis` (noemoji.py lines 160-166). -/
def remove_emojis : String → String := remove_emojis_regex

/-- Python `str.lower()`, modelled for the ASCII letters that make up
file extensions (`Char.toLower` lowers exactly the ASCII range). -/
def pyLower (s : String) : String := String.mk (s.toList.map Char.toLower)

/-- Helper for `pySuffix`: the tail of the character list starting at
its last `'.'`, or `none` when the name holds no dot. -/
def lastDotSuffix : List Char → Option (List Char)
  | [] => none
  | c :: rest =>
    match lastDotSuffix rest with
    | some s => some s
    | none => if c = '.' then some (c :: rest) else none

/-- `pathlib.PurePath.suffix`: the part of the file name from its last
dot onwards, or `""` when there is no dot, the dot is the first
character (hidden files such as `.bashrc`), or the dot is the last
character.  CPython computes `name[i:]` for `i = name.rfind('.')` when
`0 < i < len(name) - 1`, else `""`; the two index conditions translate
to the tail being shorter than the whole name and longer than one
character. -/
def pySuffix (name : String) : String :=
  match lastDotSuffix name.toList with
  | none => ""
  | some s =>
    if s.length < name.toList.length ∧ 1 < s.length then String.mk s else ""

/-- `file_path.suffix.lower()` as computed by `scan_directory`
(noemoji.py lines 297 and 331). -/
def fileSuffix (name : String) : String := pyLower (pySuffix name)

/-- `is_large_file(file_path)` (noemoji.py lines 202-207):
`file_path.stat().st_size > LARGE_FILE_THRESHOLD`, with `OSError`
caught and turned into `False`.  The `stat` call is modelled by its
outcome: `some size`, or `none` when it raises `OSError`. -/
def is_large_file (statSize : Option Nat) : Bool :=
  match statSize with
  | some size => decide (LARGE_FILE_THRESHOLD < size)
  | none => false

/-- `FileResult` (noemoji.py lines 133-137). -/
structure FileResult where
  path : String
  emoji_count : Nat
  emojis_found : List String
deriving DecidableEq, Repr

/-- How the filesystem answers the scanner's per-file operations.  The
fields model the outcomes of the OS calls issued for one file:
`statSize` is the `stat` outcome (`none` = `OSError`); `wholeRead` is
the `read_text` outcome (`none` = `UnicodeDecodeError`,
`PermissionError` or `OSError`); `streamLines` are the lines the
streaming line iterator yields before `streamError` tells whether the
iteration was cut short by a `PermissionError`/`OSError` (the source's
`except` swallows that error, so the model keeps it as a flag that the
code never consults). -/
structure FileEntry where
  name : String
  statSize : Option Nat
  wholeRead : Option String
  streamLines : List String
  streamError : Bool
deriving DecidableEq, Repr

/-- The filesystem operations the scan issues, recorded as a trace so
that frame properties ("the scan never writes") are expressible. -/
inductive FsEvent where
  | stat (path : String)
  | readText (path : String)
  | readLines (path : String)
  | writeText (path : String) (content : String)
  | moveFile (src dst : String)
  | unlink (path : String)
deriving DecidableEq, Repr

/-- Whether an event mutates the filesystem. -/
def FsEvent.isWrite : FsEvent → Bool
  | .writeText _ _ => true
  | .moveFile _ _ => true
  | .unlink _ => true
  | _ => false

/-- `scan_file_streaming(file_path)` (noemoji.py lines 169-178): the
emojis of every line the iterator yields, concatenated in order.  A
`PermissionError`/`OSError` during iteration is caught by `pass`, so
the partial accumulation is returned unchanged and the error leaves no
other trace — the result does not depend on `streamError`. -/
def scan_file_streaming (f : FileEntry) : List String :=
  (f.streamLines.map find_emojis).flatten

/-- `process_file(file_path, dry_run)` (noemoji.py lines 210-238):
returns `(result, was_skipped)` together with the trace of filesystem
operations issued.  Large files are scanned with
`scan_file_streaming`; small files are read whole, a read failure
giving `(None, True)`.  The `dry_run` parameter is accepted and — as
in the source — never used. -/
def process_file (f : FileEntry) (dry_run : Bool) :
    (Option FileResult × Bool) × List FsEvent :=
  if is_large_file f.statSize then
    let emojis := scan_file_streaming f
    ((if emojis.isEmpty then (none, false)
      else (some { path := f.name, emoji_count := emojis.length,
                   emojis_found := emojis }, false)),
     [FsEvent.stat f.name, FsEvent.readLines f.name])
  else
    match f.wholeRead with
    | none => ((none, true), [FsEvent.stat f.name, FsEvent.readText f.name])
    | some content =>
      let emojis := find_emojis content
      ((if emojis.isEmpty then (none, false)
        else (some { path := f.name, emoji_count := emojis.length,
                     emojis_found := emojis }, false)),
       [FsEvent.stat f.name, FsEvent.readText f.name])

/-- Python truthiness of the optional extension lists as used by
`if extensions:` / `if excludes:` (noemoji.py lines 300 and 307):
`None` and the empty list are falsy. -/
def truthy : Option (List String) → Bool
  | none => false
  | some l => !l.isEmpty

/-- The extension normalization of `main` (noemoji.py lines 420 and
424): `ext if ext.startswith(".") else f".{ext}"`.  No case folding is
applied to the caller-supplied token. -/
def normalizeExt (e : String) : String :=
  if e.toList.head? = some '.' then e else "." ++ e

/-- The filter decision of `scan_directory`'s collection loop
(noemoji.py lines 299-311): the file is kept iff the whitelist, when
truthy, contains the (lower-cased) suffix, and the blacklist, when
truthy, does not. -/
def passesFilter (suffix : String)
    (extensions excludes : Option (List String)) : Bool :=
  (if truthy extensions then (extensions.getD []).contains suffix else true)
    && (if truthy excludes then !((excludes.getD []).contains suffix) else true)

/-- Insertion into the `skipped_extensions` set, modelled as a
duplicate-free list in encounter order. -/
def addExt (s : List String) (e : String) : List String :=
  if e ∈ s then s else s ++ [e]

/-- `ScanResult` (noemoji.py lines 277-280); the Python `set` of
skipped extensions is modelled as a duplicate-free list. -/
structure ScanResult where
  files : List FileResult
  skipped_extensions : List String
deriving DecidableEq, Repr

/-- First loop of `scan_directory` (noemoji.py lines 294-313): walk
the files, keep those passing the filter, and record the non-empty
suffixes of filtered-out files. -/
def phase1 (extensions excludes : Option (List String)) :
    List FileEntry → List FileEntry → List String →
    List FileEntry × List String
  | [], toProc, skipped => (toProc, skipped)
  | f :: rest, toProc, skipped =>
    let suffix := fileSuffix f.name
    if passesFilter suffix extensions excludes then
      phase1 extensions excludes rest (toProc ++ [f]) skipped
    else if suffix ≠ "" then
      phase1 extensions excludes rest toProc (addExt skipped suffix)
    else
      phase1 extensions excludes rest toProc skipped

/-- Second loop of `scan_directory` (noemoji.py lines 324-333): run
`process_file` on each kept file, collect the results, and record the
non-empty suffix of every file skipped as unreadable.  The progress
bar writes to stdout only, so it contributes no filesystem event. -/
def phase2 (dry_run : Bool) :
    List FileEntry → List FileResult → List String →
    List FileResult × List String × List FsEvent
  | [], results, skipped => (results, skipped, [])
  | f :: rest, results, skipped =>
    let pr := process_file f dry_run
    let acc : List FileResult × List String :=
      match pr.1.1 with
      | some r => (results ++ [r], skipped)
      | none =>
        if pr.1.2 then
          let suffix := fileSuffix f.name
          if suffix ≠ "" then (results, addExt skipped suffix)
          else (results, skipped)
        else (results, skipped)
    let next := phase2 dry_run rest acc.1 acc.2
    (next.1, next.2.1, pr.2 ++ next.2.2)

/-- `scan_directory(target_dir, extensions, excludes, dry_run)`
(noemoji.py lines 283-336), over the walked list of files; the early
return when no file passes the filter yields the same `ScanResult` as
running the empty second loop.  The returned event list is the trace
of filesystem operations the scan issued. -/
def scan_directory (files : List FileEntry)
    (extensions excludes : Option (List String)) (dry_run : Bool) :
    ScanResult × List FsEvent :=
  let p1 := phase1 extensions excludes files [] []
  let p2 := phase2 dry_run p1.1 [] p1.2
  ({ files := p2.1, skipped_extensions := p2.2.1 }, p2.2.2)

/- ### Execute pass, small files (noemoji.py lines 461-476) -/

/-- Outcome of the OS-level write underlying `Path.write_text`:
the write succeeds; or opening fails (e.g. `PermissionError`) before
the file is touched; or, after `open(mode="w")` has truncated the file,
the write fails once `k` characters have been written (e.g. disk
full). -/
inductive WriteOutcome where
  | ok
  | openFail
  | failAfter (k : Nat)
deriving DecidableEq, Repr

/-- `Path.write_text(data)` semantics on a file currently holding
`orig`: `open(mode="w")` truncates, then the data is written.  Returns
the file's content after the attempt and whether it succeeded. -/
def write_text (orig data : String) : WriteOutcome → String × Bool
  | .ok => (data, true)
  | .openFail => (orig, false)
  | .failAfter k => (String.mk (data.toList.take k), false)

/-- The small-file branch of the execute pass in `main` (noemoji.py
lines 470-476): `content = read_text(); cleaned = remove_emojis
(content); file_path.write_text(cleaned)`, exceptions caught and
logged.  Returns the file's content after the attempt and whether the
rewrite succeeded; the write is in place, with no temporary file. -/
def execute_small (orig : String) (w : WriteOutcome) : String × Bool :=
  write_text orig (remove_emojis orig) w

/- ### Execute pass, large files (noemoji.py lines 181-199) -/

/-- A filesystem path split into its directory and final name. -/
structure PyPath where
  dir : List String
  name : String
deriving DecidableEq, Repr

/-- The system default temporary directory, `tempfile.gettempdir()`:
`tempfile.NamedTemporaryFile` places its file there when no `dir`
argument is given — and the call in `process_file_streaming`
(noemoji.py line 184) gives none. -/
def sysTempDir : List String := ["tmp"]

/-- Outcome of the streaming write: all lines written and the move
performed; or a `PermissionError`/`OSError` raised after `k` lines
were written to the temporary file. -/
inductive StreamOutcome where
  | ok
  | writeFail (k : Nat)
deriving DecidableEq, Repr

/-- Observable result of one `process_file_streaming` run. -/
structure StreamRun where
  tmpPath : PyPath
  tmpWritten : List String
  tmpExists : Bool
  origLinesAfter : List String
  success : Bool
deriving DecidableEq, Repr

/-- `process_file_streaming(file_path)` (noemoji.py lines 181-199):
a named temporary file (fresh name `fresh` plus the original's suffix)
is created by `tempfile.NamedTemporaryFile` — in the system default
temporary directory, since the call passes no `dir` — each line is
rewritten through `remove_emojis` into it, and `shutil.move` then
replaces the original with it.  On `PermissionError`/`OSError` during
the write, the partial temporary file is deleted and `False` is
returned, the original untouched. -/
def process_file_streaming (file : PyPath) (origLines : List String)
    (fresh : String) (outcome : StreamOutcome) : StreamRun :=
  let tmpPath : PyPath := { dir := sysTempDir, name := fresh ++ pySuffix file.name }
  match outcome with
  | .ok =>
    { tmpPath := tmpPath
      tmpWritten := origLines.map remove_emojis
      tmpExists := false
      origLinesAfter := origLines.map remove_emojis
      success := true }
  | .writeFail k =>
    { tmpPath := tmpPath
      tmpWritten := (origLines.take k).map remove_emojis
      tmpExists := false
      origLinesAfter := origLines
      success := false }

/- ### Concrete inputs used by counterexamples and witnesses -/

/-- A small file whose content starts with U+1F600 (😀). -/
def smallOrig : String := "😀ab"

/-- A file named `a.MD` scanned while the include list is the
normalization of the caller token `.MD`. -/
def mdEntry : FileEntry :=
  { name := "a.MD", statSize := some 3, wholeRead := some "x",
    streamLines := [], streamError := false }

/-- A file over the 10 MiB threshold whose streaming read fails
immediately (`PermissionError` on open: no lines yielded). -/
def hugeLog : FileEntry :=
  { name := "huge.log", statSize := some (10 * 1024 * 1024 + 1),
    wholeRead := none, streamLines := [], streamError := true }

/-- A small undecodable file, e.g. a binary blob. -/
def binEntry : FileEntry :=
  { name := "c.bin", statSize := some 3, wholeRead := none,
    streamLines := [], streamError := false }

/-- A large file living outside the system temporary directory. -/
def bigFile : PyPath := { dir := ["home", "user"], name := "big.txt" }

end NoEmoji

namespace NoEmoji

/- ### Basic lemmas about the matcher -/

theorem length_filter_add_length_filter_not (p : Char → Bool)
    (l : List Char) :
    (l.filter p).length + (l.filter fun c => !p c).length = l.length := by
  induction l with
  | nil => rfl
  | cons c t ih =>
    by_cases h : p c <;> simp [List.filter_cons, h] <;> omega

/-- C6: The strip operation is idempotent: for every text `x`,
`strip (strip x) = strip x`. -/
theorem C6_strip_idempotent (x : String) :
    remove_emojis (remove_emojis x) = remove_emojis x := by
  simp [remove_emojis, remove_emojis_regex, List.filter_filter]

/-- C7: Round trip between strip and find-all: for every text `x`,
`find_all (strip x)` is the empty sequence. -/
theorem C7_find_after_strip (x : String) :
    find_emojis (remove_emojis x) = [] := by
  simp [find_emojis, remove_emojis, find_emojis_regex, remove_emojis_regex,
    List.filter_filter]

/-- C8: The matcher is the lenient single-codepoint matcher: every
match of `find_all` is one codepoint long, the number of codepoints
removed by strip equals the number of matches, and on the text
`"🎉🎉🎉done"` exactly 3 matches are reported. -/
theorem C8_single_codepoint_granularity :
    (∀ x : String,
      ((find_emojis x).all fun m => m.length == 1) = true) ∧
    (∀ x : String,
      x.length - (remove_emojis x).length = (find_emojis x).length) ∧
    (find_emojis "🎉🎉🎉done").length = 3 := by
  refine ⟨?_, ?_, by decide⟩
  · intro x
    rw [List.all_eq_true]
    intro m hm
    simp only [find_emojis, find_emojis_regex, List.mem_map] at hm
    obtain ⟨c, _, rfl⟩ := hm
    rfl
  · intro x
    have h := length_filter_add_length_filter_not isEmojiChar x.toList
    show x.length - (remove_emojis_regex x).length = (find_emojis_regex x).length
    simp only [remove_emojis_regex, find_emojis_regex, List.length_map]
    have hm : (String.mk (x.toList.filter fun c => !isEmojiChar c)).length
        = (x.toList.filter fun c => !isEmojiChar c).length := rfl
    have hx : x.length = x.toList.length := rfl
    omega

/- ### Strategy selection -/

/-- C9: The Streaming strategy is chosen iff the file's size strictly
exceeds `10 * 1024 * 1024` bytes, and a failing size lookup makes the
file count as small instead of failing the scan. -/
theorem C9_strategy_selection :
    (∀ size : Nat,
      is_large_file (some size) = decide (LARGE_FILE_THRESHOLD < size)) ∧
    is_large_file none = false ∧
    LARGE_FILE_THRESHOLD = 10 * 1024 * 1024 :=
  ⟨fun _ => rfl, rfl, rfl⟩

/- ### Extension filtering -/

theorem passesFilter_iff (suffix : String)
    (extensions excludes : Option (List String)) :
    passesFilter suffix extensions excludes = true ↔
      (truthy extensions = false ∨
        (extensions.getD []).contains suffix = true) ∧
      (truthy excludes = false ∨
        (excludes.getD []).contains suffix = false) := by
  unfold passesFilter
  by_cases h1 : truthy extensions <;> by_cases h2 : truthy excludes <;>
    simp [h1, h2]

theorem phase1_singleton (f : FileEntry)
    (extensions excludes : Option (List String)) :
    (phase1 extensions excludes [f] [] []).1 =
      if passesFilter (fileSuffix f.name) extensions excludes then [f]
      else [] := by
  by_cases h : passesFilter (fileSuffix f.name) extensions excludes
  · simp [phase1, h]
  · by_cases hs : fileSuffix f.name = ""
    · rw [hs] at h
      simp [phase1, hs, h]
    · simp [phase1, h, hs]

/-- C4 counterexample: the caller token `.MD` is kept verbatim by the
normalization, it equals the suffix of file `a.MD` up to case, yet the
file is filtered out (and its lower-cased extension recorded as
skipped): extension comparison is not case-insensitive on the
caller-supplied side. -/
theorem C4_counterexample :
    pyLower (fileSuffix mdEntry.name) = pyLower (normalizeExt ".MD") ∧
    (phase1 (some [normalizeExt ".MD"]) none [mdEntry] [] []).1 = [] ∧
    (scan_directory [mdEntry] (some [normalizeExt ".MD"]) none
      true).1.skipped_extensions = [".md"] := by
  refine ⟨by decide, by decide, by decide⟩

/-- C4 amended: a file is kept for processing iff (the include list is
absent/empty OR its lower-cased suffix is literally among the include
tokens) AND (the exclude list is absent/empty OR its lower-cased
suffix is not among the exclude tokens); a caller token lacking a
leading dot has one prepended, but tokens are not case-folded — only
the file's own suffix is lower-cased. -/
theorem C4_filter_characterization :
    (∀ (f : FileEntry) (extensions excludes : Option (List String)),
      (phase1 extensions excludes [f] [] []).1 = [f] ↔
        (truthy extensions = false ∨
          (extensions.getD []).contains (fileSuffix f.name) = true) ∧
        (truthy excludes = false ∨
          (excludes.getD []).contains (fileSuffix f.name) = false)) ∧
    (∀ e : String,
      normalizeExt e
        = if e.toList.head? = some '.' then e else "." ++ e) := by
  refine ⟨fun f extensions excludes => ?_, fun e => rfl⟩
  rw [phase1_singleton, ← passesFilter_iff]
  by_cases h : passesFilter (fileSuffix f.name) extensions excludes <;>
    simp [h]

/- ### Read failures and skip accounting -/

/-- C3 counterexample: a large file whose streaming read fails
(`streamError`, e.g. permission denied) is not reported as skipped —
`process_file` returns `(None, False)`, the extension `.log` is not
recorded, and the file counts as scanned with zero emoji. -/
theorem C3_counterexample :
    hugeLog.streamError = true ∧
    (process_file hugeLog true).1 = (none, false) ∧
    (scan_directory [hugeLog] none none true).1.skipped_extensions = [] := by
  refine ⟨rfl, by decide, by decide⟩

/-- C3 amended: for a small (WholeFile-strategy) file whose read
fails, `process_file` returns the skip marker `(None, True)`, the
orchestrator records the file's non-empty lower-cased extension in
`skipped_extensions`, and no `FileResult` is produced.  (For
large/Streaming files, read failures are swallowed instead.) -/
theorem C3_small_unreadable (f : FileEntry) (dry_run : Bool)
    (hsmall : is_large_file f.statSize = false)
    (hread : f.wholeRead = none)
    (hsuffix : fileSuffix f.name ≠ "") :
    (process_file f dry_run).1 = (none, true) ∧
    (scan_directory [f] none none dry_run).1.files = [] ∧
    (scan_directory [f] none none dry_run).1.skipped_extensions
      = [fileSuffix f.name] := by
  have hpass : passesFilter (fileSuffix f.name) none none = true := rfl
  have hpf : (process_file f dry_run).1 = (none, true) := by
    simp [process_file, hsmall, hread]
  have h1 : (process_file f dry_run).1.1 = none := by rw [hpf]
  have h2 : (process_file f dry_run).1.2 = true := by rw [hpf]
  refine ⟨hpf, ?_, ?_⟩ <;>
    simp [scan_directory, phase1, hpass, phase2, h1, h2, hsuffix, addExt]

/-- Witness for the amended C3 at the concrete binary file `c.bin`. -/
theorem C3_small_unreadable_witness :
    (process_file binEntry true).1 = (none, true) ∧
    (scan_directory [binEntry] none none true).1.files = [] ∧
    (scan_directory [binEntry] none none true).1.skipped_extensions
      = [".bin"] := by
  have h := C3_small_unreadable binEntry true (by decide) rfl (by decide)
  have hfs : fileSuffix binEntry.name = ".bin" := by decide
  exact ⟨h.1, h.2.1, hfs ▸ h.2.2⟩

/- ### The scan never writes -/

theorem process_file_events_no_write (f : FileEntry) (dry_run : Bool) :
    ((process_file f dry_run).2.all fun e => !e.isWrite) = true := by
  by_cases h : is_large_file f.statSize
  · simp [process_file, h, FsEvent.isWrite]
  · cases hw : f.wholeRead <;>
      simp [process_file, h, hw, FsEvent.isWrite]

theorem phase2_events_no_write (dry_run : Bool) :
    ∀ (files : List FileEntry) (results : List FileResult)
      (skipped : List String),
    ((phase2 dry_run files results skipped).2.2.all
      fun e => !e.isWrite) = true := by
  intro files
  induction files with
  | nil => intro results skipped; rfl
  | cons f rest ih =>
    intro results skipped
    simp [phase2, List.all_append, ih, process_file_events_no_write]

/-- C5: The preview (dry-run) scan pass issues only read operations —
no write, move or unlink event ever appears in its filesystem trace,
whatever the directory contents, filters, and match counts. -/
theorem C5_preview_never_writes (files : List FileEntry)
    (extensions excludes : Option (List String)) :
    ((scan_directory files extensions excludes true).2.all
      fun e => !e.isWrite) = true := by
  simp [scan_directory, phase2_events_no_write]

/- ### dry_run non-interference -/

theorem phase2_ignores_dry :
    ∀ (files : List FileEntry) (results : List FileResult)
      (skipped : List String),
    phase2 true files results skipped = phase2 false files results skipped := by
  intro files
  induction files with
  | nil => intro results skipped; rfl
  | cons f rest ih =>
    intro results skipped
    have hp : process_file f true = process_file f false := rfl
    simp [phase2, hp, ih]

/-- C10: The `dry_run` argument is non-interfering: `process_file`
returns the same result and issues the same filesystem events for any
two values of it, and `scan_directory` returns identical `ScanResult`s
and identical event traces with `dry_run = true` and
`dry_run = false`. -/
theorem C10_dry_run_noninterference :
    (∀ (f : FileEntry) (d1 d2 : Bool),
      process_file f d1 = process_file f d2) ∧
    (∀ (files : List FileEntry)
      (extensions excludes : Option (List String)),
      scan_directory files extensions excludes true
        = scan_directory files extensions excludes false) := by
  refine ⟨fun f d1 d2 => rfl, fun files extensions excludes => ?_⟩
  simp [scan_directory, phase2_ignores_dry]

/- ### Execute pass, small files -/

/-- C1 counterexample: on the file `"😀ab"`, a write that fails after
one character leaves the file holding `"a"` — not the original
content: the in-place `write_text` rewrite can destroy the original on
a mid-write failure. -/
theorem C1_counterexample :
    (execute_small smallOrig (WriteOutcome.failAfter 1)).2 = false ∧
    (execute_small smallOrig (WriteOutcome.failAfter 1)).1
      = "a" ∧
    (execute_small smallOrig (WriteOutcome.failAfter 1)).1 ≠ smallOrig := by
  refine ⟨by decide, by decide, by decide⟩

/-- C1 amended: in the small-file execute pass, a failure to open the
file for writing leaves the original untouched, but the write is
performed in place (no temporary file): a failure after `k` characters
leaves the file truncated to the first `k` characters of the cleaned
text; on success the file holds exactly the cleaned text. -/
theorem C1_small_write_failure (orig : String) (k : Nat) :
    execute_small orig WriteOutcome.openFail = (orig, false) ∧
    execute_small orig (WriteOutcome.failAfter k)
      = (String.mk ((remove_emojis orig).toList.take k), false) ∧
    execute_small orig WriteOutcome.ok = (remove_emojis orig, true) :=
  ⟨rfl, rfl, rfl⟩

/- ### Execute pass, large files -/

/-- C2 counterexample: the temporary file of the streaming rewrite is
created in the system default temporary directory — for the file
`/home/user/big.txt` that is not the file's own directory, so the
"same directory/filesystem" part of the claim fails (and the
subsequent `shutil.move` is a copy, not an atomic rename, whenever
that directory is a different filesystem). -/
theorem C2_counterexample :
    (process_file_streaming bigFile ["x"] "tmpabc123"
      StreamOutcome.ok).tmpPath.dir = sysTempDir ∧
    sysTempDir ≠ bigFile.dir :=
  ⟨rfl, by decide⟩

/-- C2 amended: the transformed lines are written to a fresh temporary
file in the system default temporary directory (not necessarily the
original's directory or filesystem), the original is then replaced via
`shutil.move`, and on any I/O error during the streaming write the
partial temporary file is deleted and the original is left
untouched. -/
theorem C2_streaming_write (file : PyPath) (origLines : List String)
    (fresh : String) (k : Nat) :
    (process_file_streaming file origLines fresh
      StreamOutcome.ok).origLinesAfter = origLines.map remove_emojis ∧
    (process_file_streaming file origLines fresh
      StreamOutcome.ok).tmpPath.dir = sysTempDir ∧
    (process_file_streaming file origLines fresh
      (StreamOutcome.writeFail k)).origLinesAfter = origLines ∧
    (process_file_streaming file origLines fresh
      (StreamOutcome.writeFail k)).tmpWritten
      = (origLines.take k).map remove_emojis ∧
    (process_file_streaming file origLines fresh
      (StreamOutcome.writeFail k)).tmpExists = false ∧
    (process_file_streaming file origLines fresh
      (StreamOutcome.writeFail k)).success = false :=
  ⟨rfl, rfl, rfl, rfl, rfl, rfl⟩

end NoEmoji
